import Mathlib

set_option maxRecDepth 100000

-- Shallow embedding of the ECS core of `src/pixelz.cpp` (repository blackwer/pixelz).
-- Machine integers are modelled as `Nat` with explicit wraparound where the source
-- can overflow; `std::unordered_map`s whose entries are iterated are modelled as
-- association lists ordered by insertion, the others as functions into `Option`;
-- operations whose C++ counterpart has undefined behavior on some input return
-- `Option`, with `none` marking exactly the undefined-behavior paths.

/-- Entity ids: `using Entity = std::uint32_t`. -/
abbrev Entity := Nat

/-- The source's `constexpr Entity MAX_ENTITIES = 5000`. -/
def MAX_ENTITIES : Nat := 5000

/-- The source's `constexpr ComponentType MAX_COMPONENTS = 32`. -/
def MAX_COMPONENTS : Nat := 32

/-- Signatures model `std::bitset<32>` (`using Signature = std::bitset<MAX_COMPONENTS>`)
as natural numbers; every value the source produces stays below `2 ^ 32` because
every bit position it sets is a `ComponentType` below 32. -/
abbrev Signature := Nat

/-- Bit positions used for component types: `using ComponentType = std::uint8_t`. -/
abbrev ComponentType := Nat

/-- The source keys its registries by `typeid(T).name()` pointers; distinct
component or system types yield distinct keys, modelled as plain naturals. -/
abbrev TName := Nat

/-- The member call `signature.set(pos, b)` of `std::bitset<32>`: set or clear bit
`pos` (the source only ever passes a registered `ComponentType`, below 32); the
clearing branch subtracts the masked bit, which clears bit `pos` and leaves every
other bit unchanged. -/
def sigSet (s : Signature) (pos : Nat) (b : Bool) : Signature :=
  if b then s ||| (1 <<< pos) else s - (s &&& (1 <<< pos))

/-- First-match lookup in an association list; models `find`/`count` access into an
`std::unordered_map` (keys are never duplicated by the source's insertions). -/
def alookup {β : Type} : List (Nat × β) → Nat → Option β
  | [], _ => none
  | (k, v) :: rest, x => if x = k then some v else alookup rest x

/-- The member call `map.insert({k, v})` of `std::unordered_map`: adds the entry only
when the key is absent; an existing entry is left untouched. New entries are
modelled as appended at the end (iteration order is irrelevant to the source:
every loop over a map performs independent per-entry updates). -/
def ainsert {β : Type} (l : List (Nat × β)) (k : Nat) (v : β) : List (Nat × β) :=
  if (alookup l k).isSome then l else l ++ [(k, v)]

/-- The expression `map[k]` of `std::unordered_map` (`operator[]`): yields the mapped
value, default-inserting `d` when the key is absent; returns the value together
with the possibly extended map. -/
def aindex {β : Type} (l : List (Nat × β)) (k : Nat) (d : β) : β × List (Nat × β) :=
  match alookup l k with
  | some v => (v, l)
  | none => (d, l ++ [(k, d)])

/-- In-place mutation of the value stored under an existing key (the source mutates
the pointed-to `ComponentArray` through the `shared_ptr` held in the map). -/
def aset {β : Type} : List (Nat × β) → Nat → β → List (Nat × β)
  | [], _, _ => []
  | (k, v) :: rest, x, w => if x = k then (k, w) :: rest else (k, v) :: aset rest x w

/-- The `EntityManager` of `src/pixelz.cpp` lines 67-96: a FIFO queue of free ids
(front of the list = front of the `std::queue`), the per-entity signature array
(`std::array<Signature, MAX_ENTITIES>`, zero on construction), and the live count
(`std::uint32_t`, hence the explicit `% 2 ^ 32`). -/
structure EntityManager where
  available_entities_ : List Entity
  signatures_ : Entity → Signature
  living_entity_count_ : Nat

/-- The `EntityManager` constructor: pushes ids `0, 1, ..., MAX_ENTITIES - 1`. -/
def EntityManager.init : EntityManager :=
  ⟨List.range MAX_ENTITIES, fun _ => 0, 0⟩

/-- `EntityManager::create_entity` (lines 74-80): reads `available_entities_.front()`
and pops it, with no emptiness check — `front()`/`pop()` on an empty `std::queue`
is undefined behavior, modelled as `none`. -/
def EntityManager.create_entity (m : EntityManager) : Option (Entity × EntityManager) :=
  match m.available_entities_ with
  | [] => none
  | id :: rest =>
      some (id, ⟨rest, m.signatures_, (m.living_entity_count_ + 1) % 2 ^ 32⟩)

/-- `EntityManager::destroy_entity` (lines 82-86): resets the signature, pushes the id
back onto the free queue, and decrements the live count — with no validity check of
any kind (the decrement of the `uint32_t` counter wraps when it is zero). -/
def EntityManager.destroy_entity (m : EntityManager) (entity : Entity) : EntityManager :=
  ⟨m.available_entities_ ++ [entity],
   fun x => if x = entity then 0 else m.signatures_ x,
   (m.living_entity_count_ + (2 ^ 32 - 1)) % 2 ^ 32⟩

/-- `EntityManager::set_signature` (line 88). -/
def EntityManager.set_signature (m : EntityManager) (entity : Entity) (signature : Signature) :
    EntityManager :=
  ⟨m.available_entities_,
   fun x => if x = entity then signature else m.signatures_ x,
   m.living_entity_count_⟩

/-- `EntityManager::get_signature` (line 90). -/
def EntityManager.get_signature (m : EntityManager) (entity : Entity) : Signature :=
  m.signatures_ entity

/-- The `ComponentArray<T>` of lines 108-164: the packed value array
(`std::array<T, MAX_ENTITIES>`, indices at or beyond `MAX_ENTITIES` are out of
bounds in the source and never reached on the paths the claims exercise), the two
`std::unordered_map`s (never iterated, so modelled as functions into `Option`),
and the packed size. -/
structure ComponentArray (V : Type) where
  component_array_ : Nat → V
  entity_to_index_map_ : Entity → Option Nat
  index_to_entity_map_ : Nat → Option Entity
  size_ : Nat

/-- A freshly value-initialized `ComponentArray<T>` (as produced by
`std::make_shared<ComponentArray<T>>()`): zeroed storage, empty maps, size 0. -/
def ComponentArray.mk0 (V : Type) [Inhabited V] : ComponentArray V :=
  ⟨fun _ => default, fun _ => none, fun _ => none, 0⟩

/-- `ComponentArray::insert_data` (lines 111-118): unconditionally writes the new
entry at index `size_` and points both maps at it — there is no check whether the
entity already has data; a pre-existing mapping for `entity` is silently
redirected to the new slot, leaving the old slot behind. -/
def ComponentArray.insert_data {V : Type} (a : ComponentArray V) (entity : Entity)
    (component : V) : ComponentArray V :=
  let new_index := a.size_
  ⟨fun i => if i = new_index then component else a.component_array_ i,
   fun x => if x = entity then some new_index else a.entity_to_index_map_ x,
   fun i => if i = new_index then some entity else a.index_to_entity_map_ i,
   a.size_ + 1⟩

/-- `ComponentArray::remove_data` (lines 120-135): swap-remove. The source reads the
maps with `operator[]`, which default-inserts index `0` when the key is absent; on
the guarded paths (`entity_destroyed`) the key is always present, so the
`Option.getD 0` here coincides with the source. The two `erase` calls come last,
so the mapping for `entity` (resp. for the old last index) always ends up absent,
matching the C++ statement order. `size_ - 1` underflows in the source only when
the array is empty, a path the source never takes. -/
def ComponentArray.remove_data {V : Type} (a : ComponentArray V) (entity : Entity) :
    ComponentArray V :=
  let indexOfRemovedEntity := (a.entity_to_index_map_ entity).getD 0
  let indexOfLastElement := a.size_ - 1
  let arr := fun i =>
    if i = indexOfRemovedEntity then a.component_array_ indexOfLastElement
    else a.component_array_ i
  let entityOfLastElement := (a.index_to_entity_map_ indexOfLastElement).getD 0
  let e2i := fun x =>
    if x = entityOfLastElement then some indexOfRemovedEntity else a.entity_to_index_map_ x
  let i2e := fun i =>
    if i = indexOfRemovedEntity then some entityOfLastElement else a.index_to_entity_map_ i
  ⟨arr,
   fun x => if x = entity then none else e2i x,
   fun i => if i = indexOfLastElement then none else i2e i,
   a.size_ - 1⟩

/-- `ComponentArray::get_data` (lines 137-140): returns
`component_array_[entity_to_index_map_[entity]]`. When `entity` has no entry the
source's `operator[]` default-inserts index `0` and the read yields slot 0's
content — no error of any kind is produced; the map mutation is modelled away
because no later operation of any claim observes it. -/
def ComponentArray.get_data {V : Type} (a : ComponentArray V) (entity : Entity) : V :=
  a.component_array_ ((a.entity_to_index_map_ entity).getD 0)

/-- `ComponentArray::entity_destroyed` (lines 142-147): removes the entity's data
only when the map holds an entry for it (`find != end`). -/
def ComponentArray.entity_destroyed {V : Type} (a : ComponentArray V) (entity : Entity) :
    ComponentArray V :=
  if (a.entity_to_index_map_ entity).isSome then a.remove_data entity else a

/-- The `ComponentManager` of lines 166-235: type-name-keyed registries of component
type ids and of component arrays, plus the next id to hand out
(`ComponentType` is `std::uint8_t`, hence the `% 2 ^ 8`). -/
structure ComponentManager (V : Type) where
  component_types_ : List (TName × ComponentType)
  component_arrays_ : List (TName × ComponentArray V)
  next_component_type : Nat

/-- A default-constructed `ComponentManager`. -/
def ComponentManager.init (V : Type) : ComponentManager V :=
  ⟨[], [], 0⟩

/-- `ComponentManager::register_component` (lines 168-180): `insert`s into both maps
(no overwrite when the type is already registered) and increments the id counter. -/
def ComponentManager.register_component {V : Type} [Inhabited V] (m : ComponentManager V)
    (t : TName) : ComponentManager V :=
  ⟨ainsert m.component_types_ t m.next_component_type,
   ainsert m.component_arrays_ t (ComponentArray.mk0 V),
   (m.next_component_type + 1) % 2 ^ 8⟩

/-- `ComponentManager::get_component_type` (lines 182-188): `component_types_[name]`;
for an unregistered type the source's `operator[]` default-inserts and returns 0,
matching the `Option.getD 0` (the insertion itself is unobservable on every path
a claim exercises, since later lookups of the key also return 0). -/
def ComponentManager.get_component_type {V : Type} (m : ComponentManager V)
    (t : TName) : ComponentType :=
  (alookup m.component_types_ t).getD 0

/-- `ComponentManager::add_component` (lines 190-194), via `get_component_array`
(lines 229-234): for an unregistered type, `component_arrays_[name]` default-inserts
a null `shared_ptr` and the source dereferences it — undefined behavior, `none`. -/
def ComponentManager.add_component {V : Type} (m : ComponentManager V) (t : TName)
    (entity : Entity) (component : V) : Option (ComponentManager V) :=
  match alookup m.component_arrays_ t with
  | none => none
  | some a =>
      some ⟨m.component_types_,
            aset m.component_arrays_ t (a.insert_data entity component),
            m.next_component_type⟩

/-- `ComponentManager::remove_component` (lines 196-200). The source writes
`get_component_array<T>()->RemoveData(entity)`, but `ComponentArray` has no member
`RemoveData` (the defined member is `remove_data`), so every instantiation of this
template is ill-formed; the repository never instantiates it. Modelled here as the
evidently intended call to `remove_data`; the `none` case again marks the null
`shared_ptr` dereference for an unregistered type. -/
def ComponentManager.remove_component {V : Type} (m : ComponentManager V) (t : TName)
    (entity : Entity) : Option (ComponentManager V) :=
  match alookup m.component_arrays_ t with
  | none => none
  | some a =>
      some ⟨m.component_types_,
            aset m.component_arrays_ t (a.remove_data entity),
            m.next_component_type⟩

/-- `ComponentManager::get_component` (lines 202-206): dispatches to `get_data`;
`none` marks the null `shared_ptr` dereference for an unregistered type. -/
def ComponentManager.get_component {V : Type} (m : ComponentManager V) (t : TName)
    (entity : Entity) : Option V :=
  (alookup m.component_arrays_ t).map (fun a => a.get_data entity)

/-- `ComponentManager::entity_destroyed` (lines 208-216): notifies every registered
array (the per-entry updates are independent, so list order is immaterial). -/
def ComponentManager.entity_destroyed {V : Type} (m : ComponentManager V)
    (entity : Entity) : ComponentManager V :=
  ⟨m.component_types_,
   m.component_arrays_.map (fun p => (p.1, p.2.entity_destroyed entity)),
   m.next_component_type⟩

/-- The `System` base class (lines 237-240): just the entity set (`std::set<Entity>`). -/
structure System where
  entities_ : Finset Entity
deriving DecidableEq

/-- The `SystemManager` of lines 242-296: type-name-keyed signature map and system map. -/
structure SystemManager where
  signatures_ : List (TName × Signature)
  systems_ : List (TName × System)

/-- A default-constructed `SystemManager`. -/
def SystemManager.init : SystemManager :=
  ⟨[], []⟩

/-- `SystemManager::register_system` (lines 244-252): `insert`s a fresh system with an
empty entity set (when the type is already registered the `insert` is a no-op; the
freshly created system the source still returns is not tracked by the manager and
no claim concerns it, so only the manager state is modelled). -/
def SystemManager.register_system (sm : SystemManager) (t : TName) : SystemManager :=
  ⟨sm.signatures_, ainsert sm.systems_ t ⟨∅⟩⟩

/-- `SystemManager::set_signature` (lines 254-260): `signatures_.insert({name, sig})` —
note this is `insert`, which does nothing when the key is already present. -/
def SystemManager.set_signature (sm : SystemManager) (t : TName) (signature : Signature) :
    SystemManager :=
  ⟨ainsert sm.signatures_ t signature, sm.systems_⟩

/-- `SystemManager::entity_destroyed` (lines 262-270): erases the entity from every
system's set unconditionally. -/
def SystemManager.entity_destroyed (sm : SystemManager) (entity : Entity) : SystemManager :=
  ⟨sm.signatures_, sm.systems_.map (fun p => (p.1, ⟨p.2.entities_.erase entity⟩))⟩

/-- The loop body of `SystemManager::entity_signature_changed` (lines 272-288): walks
the system map in order; for each system reads `signatures_[type]` with
`operator[]` (default-inserting signature 0 for a system whose signature was never
set — the map is threaded through the loop to model that mutation), then inserts
the entity into the system's set when
`(entity_signature & system_signature) == system_signature` and erases it
otherwise. -/
def escLoop (entity : Entity) (entity_signature : Signature) :
    List (TName × System) → List (TName × Signature) →
    List (TName × System) × List (TName × Signature)
  | [], sigs => ([], sigs)
  | (t, s) :: rest, sigs =>
      let p := aindex sigs t 0
      let s1 : System :=
        if entity_signature &&& p.1 = p.1 then ⟨insert entity s.entities_⟩
        else ⟨s.entities_.erase entity⟩
      let q := escLoop entity entity_signature rest p.2
      ((t, s1) :: q.1, q.2)

/-- `SystemManager::entity_signature_changed` (lines 272-288). -/
def SystemManager.entity_signature_changed (sm : SystemManager) (entity : Entity)
    (entity_signature : Signature) : SystemManager :=
  let q := escLoop entity entity_signature sm.systems_ sm.signatures_
  ⟨q.2, q.1⟩

/-- The `Coordinator` of lines 298-371: the three managers. -/
structure Coordinator (V : Type) where
  component_manager_ : ComponentManager V
  entity_manager_ : EntityManager
  system_manager_ : SystemManager

/-- `Coordinator::init` (lines 300-305): three freshly constructed managers. -/
def Coordinator.init (V : Type) : Coordinator V :=
  ⟨ComponentManager.init V, EntityManager.init, SystemManager.init⟩

/-- `Coordinator::create_entity` (line 308). -/
def Coordinator.create_entity {V : Type} (c : Coordinator V) :
    Option (Entity × Coordinator V) :=
  (c.entity_manager_.create_entity).map
    (fun p => (p.1, ⟨c.component_manager_, p.2, c.system_manager_⟩))

/-- `Coordinator::destroy_entity` (lines 310-316): entity manager first, then the
component manager purge, then the system manager purge. -/
def Coordinator.destroy_entity {V : Type} (c : Coordinator V) (entity : Entity) :
    Coordinator V :=
  ⟨c.component_manager_.entity_destroyed entity,
   c.entity_manager_.destroy_entity entity,
   c.system_manager_.entity_destroyed entity⟩

/-- `Coordinator::register_component` (lines 319-322). -/
def Coordinator.register_component {V : Type} [Inhabited V] (c : Coordinator V)
    (t : TName) : Coordinator V :=
  ⟨c.component_manager_.register_component t, c.entity_manager_, c.system_manager_⟩

/-- `Coordinator::add_component` (lines 324-333): store the component, set bit
`get_component_type<T>()` in the entity's signature, write the signature back, and
notify the system manager with the new signature. -/
def Coordinator.add_component {V : Type} (c : Coordinator V) (t : TName)
    (entity : Entity) (component : V) : Option (Coordinator V) :=
  match c.component_manager_.add_component t entity component with
  | none => none
  | some cm1 =>
      let signature :=
        sigSet (c.entity_manager_.get_signature entity) (cm1.get_component_type t) true
      some ⟨cm1,
            c.entity_manager_.set_signature entity signature,
            c.system_manager_.entity_signature_changed entity signature⟩

/-- `Coordinator::remove_component` (lines 335-344): remove the component (see the
`RemoveData` note on `ComponentManager.remove_component`), clear bit
`get_component_type<T>()`, write the signature back, and notify the system
manager. -/
def Coordinator.remove_component {V : Type} (c : Coordinator V) (t : TName)
    (entity : Entity) : Option (Coordinator V) :=
  match c.component_manager_.remove_component t entity with
  | none => none
  | some cm1 =>
      let signature :=
        sigSet (c.entity_manager_.get_signature entity) (cm1.get_component_type t) false
      some ⟨cm1,
            c.entity_manager_.set_signature entity signature,
            c.system_manager_.entity_signature_changed entity signature⟩

/-- `Coordinator::get_component` (lines 346-349). -/
def Coordinator.get_component {V : Type} (c : Coordinator V) (t : TName)
    (entity : Entity) : Option V :=
  c.component_manager_.get_component t entity

/-- `Coordinator::register_system` (lines 357-360). -/
def Coordinator.register_system {V : Type} (c : Coordinator V) (t : TName) :
    Coordinator V :=
  ⟨c.component_manager_, c.entity_manager_, c.system_manager_.register_system t⟩

/-- `Coordinator::set_system_signature` (lines 362-365). -/
def Coordinator.set_system_signature {V : Type} (c : Coordinator V) (t : TName)
    (signature : Signature) : Coordinator V :=
  ⟨c.component_manager_, c.entity_manager_, c.system_manager_.set_signature t signature⟩

/-- Lookup through a value-only `map` over an association list. -/
theorem alookup_map {β γ : Type} (f : β → γ) (l : List (Nat × β)) (x : Nat) :
    alookup (l.map (fun p => (p.1, f p.2))) x = (alookup l x).map f := by
  induction l with
  | nil => rfl
  | cons p rest ih =>
      obtain ⟨k, v⟩ := p
      simp only [List.map_cons, alookup]
      by_cases h : x = k
      · simp [h]
      · simp [h, ih]

/-- Lookup distributes over append, preferring the left list. -/
theorem alookup_append {β : Type} (l1 l2 : List (Nat × β)) (x : Nat) :
    alookup (l1 ++ l2) x = (alookup l1 x).orElse (fun _ => alookup l2 x) := by
  induction l1 with
  | nil => rfl
  | cons p rest ih =>
      obtain ⟨k, v⟩ := p
      simp only [List.cons_append, alookup]
      by_cases h : x = k
      · simp [h]
      · simp [h, ih]

/-- Lookup after `ainsert`: an existing entry survives, a missing one becomes `v`. -/
theorem alookup_ainsert {β : Type} (l : List (Nat × β)) (k : Nat) (v : β) (x : Nat) :
    alookup (ainsert l k v) x =
      if x = k then some ((alookup l k).getD v) else alookup l x := by
  unfold ainsert
  cases hk : alookup l k with
  | some w =>
      simp only [hk, Option.isSome_some, if_true]
      by_cases h : x = k
      · simp [h, hk]
      · simp [h]
  | none =>
      simp only [hk, Option.isSome_none, Bool.false_eq_true, if_false]
      rw [alookup_append]
      by_cases h : x = k
      · subst h
        simp [hk, alookup]
      · cases hx : alookup l x with
        | some w => simp [h, hx]
        | none => simp [h, hx, alookup]

/-- Lookup after `aset`: the stored value changes exactly at an existing key. -/
theorem alookup_aset {β : Type} (l : List (Nat × β)) (k : Nat) (w : β) (x : Nat) :
    alookup (aset l k w) x =
      if x = k then (alookup l k).map (fun _ => w) else alookup l x := by
  induction l with
  | nil => simp [aset, alookup]
  | cons p rest ih =>
      obtain ⟨k0, v0⟩ := p
      simp only [aset, alookup]
      by_cases hk : k = k0
      · subst hk
        simp only [if_true]
        by_cases hx : x = k
        · simp [alookup, hx]
        · simp [alookup, hx]
      · simp only [hk, if_false, alookup]
        by_cases hx : x = k0
        · subst hx
          have hxk : ¬x = k := fun h => hk (h ▸ rfl)
          simp [hxk]
        · simp [hx, ih]

/-- The value `aindex` reads, and the lookups it leaves behind. -/
theorem aindex_fst {β : Type} (l : List (Nat × β)) (k : Nat) (d : β) :
    (aindex l k d).1 = (alookup l k).getD d := by
  unfold aindex
  cases h : alookup l k <;> simp

/-- Lookups in the map left behind by `aindex` at keys other than the indexed one. -/
theorem alookup_aindex_ne {β : Type} (l : List (Nat × β)) (k : Nat) (d : β) (x : Nat)
    (h : x ≠ k) : alookup (aindex l k d).2 x = alookup l x := by
  unfold aindex
  cases hk : alookup l k with
  | some w => simp
  | none =>
      simp only
      rw [alookup_append]
      cases hx : alookup l x with
      | some w => simp
      | none => simp [alookup, h]

/-- Lookup in the map left behind by `aindex` at the indexed key. -/
theorem alookup_aindex_self {β : Type} (l : List (Nat × β)) (k : Nat) (d : β) :
    alookup (aindex l k d).2 k = some ((alookup l k).getD d) := by
  unfold aindex
  cases hk : alookup l k with
  | some w => simp [hk]
  | none =>
      simp only
      rw [alookup_append, hk]
      simp [alookup]

/-- How `entity_signature_changed` rewrites each system: the affected entity is
inserted or erased according to the system's stored signature (defaulted to 0 when
its signature was never set); no other system entry appears or disappears. -/
theorem escLoop_systems (e : Entity) (esig : Signature) (sys : List (TName × System))
    (sigs : List (TName × Signature)) (t : TName) :
    alookup (escLoop e esig sys sigs).1 t =
      (alookup sys t).map (fun s =>
        if esig &&& ((alookup sigs t).getD 0) = ((alookup sigs t).getD 0)
        then ⟨insert e s.entities_⟩ else ⟨s.entities_.erase e⟩) := by
  induction sys generalizing sigs with
  | nil => rfl
  | cons p rest ih =>
      obtain ⟨t0, s0⟩ := p
      simp only [escLoop, alookup]
      by_cases h : t = t0
      · subst h
        simp [aindex_fst]
      · simp only [h, if_false, ih, alookup_aindex_ne sigs t0 0 t h]

/-- How `entity_signature_changed` rewrites the signature map: existing entries are
kept, and every system whose signature was never set gains a default entry 0. -/
theorem escLoop_sigs (e : Entity) (esig : Signature) (sys : List (TName × System))
    (sigs : List (TName × Signature)) (t : TName) :
    alookup (escLoop e esig sys sigs).2 t =
      (alookup sigs t).orElse
        (fun _ => if (alookup sys t).isSome then some 0 else none) := by
  induction sys generalizing sigs with
  | nil => cases h : alookup sigs t <;> simp [escLoop, alookup, h]
  | cons p rest ih =>
      obtain ⟨t0, s0⟩ := p
      simp only [escLoop]
      rw [ih]
      by_cases h : t = t0
      · subst h
        rw [alookup_aindex_self]
        cases hk : alookup sigs t <;> simp [alookup, hk]
      · rw [alookup_aindex_ne sigs t0 0 t h]
        simp [alookup, h]

/-- Coordinator states reachable by the setup phase alone: `init` followed by any
sequence of `register_component`, `register_system`, `set_system_signature` (the
source's `main` performs exactly such a phase before creating entities). -/
inductive SetupReach {V : Type} [Inhabited V] : Coordinator V → Prop
  | init : SetupReach (Coordinator.init V)
  | reg_comp {c : Coordinator V} (t : TName) :
      SetupReach c → SetupReach (c.register_component t)
  | reg_sys {c : Coordinator V} (t : TName) :
      SetupReach c → SetupReach (c.register_system t)
  | set_sig {c : Coordinator V} (t : TName) (sig : Signature) :
      SetupReach c → SetupReach (c.set_system_signature t sig)

/-- Coordinator states reachable by a setup phase followed by any sequence of entity
mutations (`create_entity`, `destroy_entity`, `add_component`, `remove_component`);
system signatures are set only during setup, i.e. before any entity is created or
mutated. -/
inductive CReach {V : Type} [Inhabited V] : Coordinator V → Prop
  | setup {c : Coordinator V} : SetupReach c → CReach c
  | create {c c' : Coordinator V} {e : Entity} :
      CReach c → Coordinator.create_entity c = some (e, c') → CReach c'
  | destroy {c : Coordinator V} (e : Entity) :
      CReach c → CReach (Coordinator.destroy_entity c e)
  | add {c c' : Coordinator V} {t : TName} {e : Entity} {v : V} :
      CReach c → Coordinator.add_component c t e v = some c' → CReach c'
  | remove {c c' : Coordinator V} {t : TName} {e : Entity} :
      CReach c → Coordinator.remove_component c t e = some c' → CReach c'

/-- The system-membership invariant: every registered system whose stored required
signature is nonzero holds exactly the entities whose current signature is a
superset of it. -/
def SysInv {V : Type} (c : Coordinator V) : Prop :=
  ∀ t s sig, alookup c.system_manager_.systems_ t = some s →
    alookup c.system_manager_.signatures_ t = some sig → sig ≠ 0 →
    ∀ e, e ∈ s.entities_ ↔ c.entity_manager_.signatures_ e &&& sig = sig

/-- During setup every registered system's entity set is empty and every entity's
signature is zero. -/
theorem setup_state {V : Type} [Inhabited V] {c : Coordinator V} (h : SetupReach c) :
    (∀ t s, alookup c.system_manager_.systems_ t = some s → s.entities_ = ∅) ∧
    (∀ e, c.entity_manager_.signatures_ e = 0) := by
  induction h with
  | init =>
      constructor
      · intro t s hs
        simp [Coordinator.init, SystemManager.init, alookup] at hs
      · intro e
        rfl
  | reg_comp t _ ih =>
      exact ih
  | reg_sys t _ ih =>
      refine ⟨?_, ih.2⟩
      intro t' s hs
      simp only [Coordinator.register_system, SystemManager.register_system] at hs
      rw [alookup_ainsert] at hs
      by_cases h' : t' = t
      · simp only [h', if_true] at hs
        cases hk : alookup _ t with
        | some w =>
            rw [hk] at hs
            simp only [Option.getD_some] at hs
            rw [← Option.some.inj hs]
            exact ih.1 t w hk
        | none =>
            rw [hk] at hs
            simp only [Option.getD_none] at hs
            rw [← Option.some.inj hs]
      · simp only [h', if_false] at hs
        exact ih.1 t' s hs
  | set_sig t sig _ ih =>
      exact ih

/-- A setup-phase state satisfies the membership invariant (system sets are empty and
no zero signature can be a superset of a nonzero one). -/
theorem setup_sysinv {V : Type} [Inhabited V] {c : Coordinator V} (h : SetupReach c) :
    SysInv c := by
  obtain ⟨hsys, hsig⟩ := setup_state h
  intro t s sig hs hsg hne e
  rw [hsys t s hs, hsig e]
  simp only [Finset.not_mem_empty, false_iff]
  intro hz
  exact hne (by simpa using hz.symm)

/-- The common tail of `Coordinator::add_component` and `Coordinator::remove_component`
(write the entity's new signature back, then notify the system manager) preserves
the membership invariant, whatever the component manager did. -/
theorem sysinv_mutation {V : Type} (c : Coordinator V) (cm' : ComponentManager V)
    (e : Entity) (nsig : Signature) (h : SysInv c) :
    SysInv ⟨cm', c.entity_manager_.set_signature e nsig,
            c.system_manager_.entity_signature_changed e nsig⟩ := by
  intro t s' sig' hs' hsg' hne x
  have hs2 : alookup
      (escLoop e nsig c.system_manager_.systems_ c.system_manager_.signatures_).1 t
      = some s' := hs'
  have hsg2 : alookup
      (escLoop e nsig c.system_manager_.systems_ c.system_manager_.signatures_).2 t
      = some sig' := hsg'
  show x ∈ s'.entities_ ↔
    (if x = e then nsig else c.entity_manager_.signatures_ x) &&& sig' = sig'
  rw [escLoop_systems] at hs2
  rw [escLoop_sigs] at hsg2
  cases hsys : alookup c.system_manager_.systems_ t with
  | none => rw [hsys] at hs2; simp at hs2
  | some s =>
      rw [hsys] at hs2
      simp only [Option.map_some'] at hs2
      have hsig : alookup c.system_manager_.signatures_ t = some sig' := by
        cases hk : alookup c.system_manager_.signatures_ t with
        | some w => rw [hk] at hsg2; simpa using hsg2
        | none =>
            rw [hk, hsys] at hsg2
            simp at hsg2
            exact absurd hsg2.symm hne
      rw [hsig] at hs2
      simp only [Option.getD_some] at hs2
      have hmem := h t s sig' hsys hsig hne
      by_cases hx : x = e
      · subst hx
        rw [if_pos rfl]
        by_cases hc : nsig &&& sig' = sig'
        · rw [if_pos hc] at hs2
          rw [← Option.some.inj hs2]
          simp [hc]
        · rw [if_neg hc] at hs2
          rw [← Option.some.inj hs2]
          simp [hc, Finset.not_mem_erase]
      · rw [if_neg hx]
        by_cases hc : nsig &&& sig' = sig'
        · rw [if_pos hc] at hs2
          rw [← Option.some.inj hs2]
          simp only [Finset.mem_insert, hx, false_or]
          exact hmem x
        · rw [if_neg hc] at hs2
          rw [← Option.some.inj hs2]
          simp only [Finset.mem_erase, ne_eq, hx, not_false_iff, true_and]
          exact hmem x

/-- Lookup through the per-system erase performed by `SystemManager::entity_destroyed`. -/
theorem alookup_map_erase (e : Entity) (l : List (TName × System)) (x : Nat) :
    alookup (l.map (fun p => (p.1, (⟨p.2.entities_.erase e⟩ : System)))) x =
      (alookup l x).map (fun s => ⟨s.entities_.erase e⟩) := by
  induction l with
  | nil => rfl
  | cons p rest ih =>
      obtain ⟨k, v⟩ := p
      simp only [List.map_cons, alookup]
      by_cases h : x = k
      · simp [h]
      · simp [h, ih]

/-- Lookup through the per-array purge performed by
`ComponentManager::entity_destroyed`. -/
theorem alookup_map_destroyed {V : Type} (e : Entity) (l : List (TName × ComponentArray V))
    (x : Nat) :
    alookup (l.map (fun p => (p.1, p.2.entity_destroyed e))) x =
      (alookup l x).map (fun a => a.entity_destroyed e) := by
  induction l with
  | nil => rfl
  | cons p rest ih =>
      obtain ⟨k, v⟩ := p
      simp only [List.map_cons, alookup]
      by_cases h : x = k
      · simp [h]
      · simp [h, ih]

/-- `Coordinator::destroy_entity` preserves the membership invariant: the destroyed
entity leaves every set and its signature becomes 0, which is a superset of no
nonzero signature; other entities are untouched. -/
theorem sysinv_destroy {V : Type} (c : Coordinator V) (e : Entity) (h : SysInv c) :
    SysInv (Coordinator.destroy_entity c e) := by
  intro t s' sig' hs' hsg' hne x
  have hs2 : alookup (c.system_manager_.systems_.map
      (fun p => (p.1, (⟨p.2.entities_.erase e⟩ : System)))) t
      = some s' := hs'
  have hsg2 : alookup c.system_manager_.signatures_ t = some sig' := hsg'
  show x ∈ s'.entities_ ↔
    (if x = e then 0 else c.entity_manager_.signatures_ x) &&& sig' = sig'
  rw [alookup_map_erase] at hs2
  cases hsys : alookup c.system_manager_.systems_ t with
  | none => rw [hsys] at hs2; simp at hs2
  | some s =>
      rw [hsys] at hs2
      simp only [Option.map_some'] at hs2
      have hmem := h t s sig' hsys hsg2 hne
      rw [← Option.some.inj hs2]
      by_cases hx : x = e
      · subst hx
        rw [if_pos rfl, Nat.zero_and]
        simp only [Finset.not_mem_erase, false_iff]
        exact fun hz => hne hz.symm
      · rw [if_neg hx]
        simp only [Finset.mem_erase, ne_eq, hx, not_false_iff, true_and]
        exact hmem x

/-- `Coordinator::create_entity` changes only the free queue and the live count, so it
preserves the membership invariant. -/
theorem sysinv_create {V : Type} {c c' : Coordinator V} {e : Entity}
    (hstep : Coordinator.create_entity c = some (e, c')) (h : SysInv c) : SysInv c' := by
  simp only [Coordinator.create_entity, EntityManager.create_entity] at hstep
  cases hav : c.entity_manager_.available_entities_ with
  | nil => rw [hav] at hstep; simp at hstep
  | cons a rest =>
      rw [hav] at hstep
      simp only [Option.map_some', Option.some.injEq, Prod.mk.injEq] at hstep
      obtain ⟨he, hc⟩ := hstep
      subst hc
      intro t s sig hs hsg hne x
      exact h t s sig hs hsg hne x

/-- `Coordinator::add_component` preserves the membership invariant whenever it does
not hit the unregistered-type undefined behavior. -/
theorem sysinv_add {V : Type} {c c' : Coordinator V} {t : TName} {e : Entity} {v : V}
    (hstep : Coordinator.add_component c t e v = some c') (h : SysInv c) : SysInv c' := by
  simp only [Coordinator.add_component] at hstep
  cases hcm : c.component_manager_.add_component t e v with
  | none => rw [hcm] at hstep; simp at hstep
  | some cm1 =>
      rw [hcm] at hstep
      simp only [Option.some.injEq] at hstep
      rw [← hstep]
      exact sysinv_mutation c cm1 e _ h

/-- `Coordinator::remove_component` preserves the membership invariant whenever it
does not hit the unregistered-type undefined behavior. -/
theorem sysinv_remove {V : Type} {c c' : Coordinator V} {t : TName} {e : Entity}
    (hstep : Coordinator.remove_component c t e = some c') (h : SysInv c) : SysInv c' := by
  simp only [Coordinator.remove_component] at hstep
  cases hcm : c.component_manager_.remove_component t e with
  | none => rw [hcm] at hstep; simp at hstep
  | some cm1 =>
      rw [hcm] at hstep
      simp only [Option.some.injEq] at hstep
      rw [← hstep]
      exact sysinv_mutation c cm1 e _ h

/-- Along every reachable execution whose system signatures were all set during
setup, every system with a nonzero stored signature holds exactly the matching
entities. -/
theorem creach_sysinv {V : Type} [Inhabited V] {c : Coordinator V} (h : CReach c) :
    SysInv c := by
  induction h with
  | setup hs => exact setup_sysinv hs
  | create _ hstep ih => exact sysinv_create hstep ih
  | destroy e _ ih => exact sysinv_destroy _ e ih
  | add _ hstep ih => exact sysinv_add hstep ih
  | remove _ hstep ih => exact sysinv_remove hstep ih

/-- The freshly constructed entity manager's queue, in closed form. -/
theorem em_init_avail : EntityManager.init.available_entities_ = List.range MAX_ENTITIES := by
  simp [EntityManager.init]

/-- Iterated `EntityManager::create_entity`, propagating the undefined-behavior
marker. -/
def emCreateN : Nat → EntityManager → Option EntityManager
  | 0, m => some m
  | n + 1, m =>
      match m.create_entity with
      | none => none
      | some p => emCreateN n p.2

/-- While the free queue is long enough, `k` creations succeed and consume exactly
the first `k` queued ids. -/
theorem emCreateN_drop (k : Nat) : ∀ m : EntityManager,
    k ≤ m.available_entities_.length →
    ∃ m', emCreateN k m = some m' ∧
      m'.available_entities_ = m.available_entities_.drop k := by
  induction k with
  | zero => intro m _; exact ⟨m, rfl, rfl⟩
  | succ n ih =>
      intro m h
      cases hav : m.available_entities_ with
      | nil => rw [hav] at h; simp at h
      | cons a rest =>
          have hstep : m.create_entity =
              some (a, ⟨rest, m.signatures_, (m.living_entity_count_ + 1) % 2 ^ 32⟩) := by
            unfold EntityManager.create_entity
            rw [hav]
          have hlen : n ≤ rest.length := by
            rw [hav] at h
            simpa using Nat.le_of_succ_le_succ h
          obtain ⟨m', hm', hdrop⟩ :=
            ih ⟨rest, m.signatures_, (m.living_entity_count_ + 1) % 2 ^ 32⟩ hlen
          refine ⟨m', ?_, ?_⟩
          · unfold emCreateN
            rw [hstep]
            exact hm'
          · exact hdrop.trans rfl

/-- C5: after `MAX_ENTITIES` successful creations the free queue is empty and the
next `create_entity` call hits the front of an empty `std::queue` — undefined
behavior (`none` in this model), not any defined `PoolExhausted` error: the source
contains no capacity check and no error value at all. -/
theorem c5_pool_exhausted :
    ∃ m, emCreateN MAX_ENTITIES EntityManager.init = some m ∧
      m.available_entities_ = [] ∧
      m.create_entity = none := by
  have hlen : MAX_ENTITIES ≤ EntityManager.init.available_entities_.length := by
    rw [em_init_avail, List.length_range]
  obtain ⟨m, hm, hdrop⟩ := emCreateN_drop MAX_ENTITIES EntityManager.init hlen
  have hnil : m.available_entities_ = [] := by
    rw [hdrop, em_init_avail]
    apply List.drop_eq_nil_of_le
    rw [List.length_range]
  refine ⟨m, hm, hnil, ?_⟩
  unfold EntityManager.create_entity
  rw [hnil]

/-- C6: a second `destroy_entity` on the same id performs no check and simply pushes
the id onto the free queue again — after a double destroy the id occurs (at least)
twice in the pool, so it is eligible for reuse twice; nothing fails loudly. -/
theorem c6_double_destroy (m : EntityManager) (e : Entity) :
    ((m.destroy_entity e).destroy_entity e).available_entities_.count e =
      m.available_entities_.count e + 2 := by
  show (((m.available_entities_ ++ [e]) ++ [e]).count e) = m.available_entities_.count e + 2
  simp [List.count_append]

/-- C7: `ComponentArray::insert_data` never checks for an existing entry: inserting
twice for the same entity succeeds, redirects the entity's mapping to the new
slot (so `get_data` silently returns the second value), and double-counts the
entity in `size_`; no error is reported and the first value is lost. -/
theorem c7_duplicate_insert {V : Type} (a : ComponentArray V) (e : Entity) (v1 v2 : V) :
    ((a.insert_data e v1).insert_data e v2).get_data e = v2 ∧
    ((a.insert_data e v1).insert_data e v2).size_ = a.size_ + 2 := by
  constructor
  · simp [ComponentArray.insert_data, ComponentArray.get_data]
  · rfl

/-- Setup state for the C3 evaluation: one registered component type. -/
def c3coSetup : Coordinator Nat :=
  (Coordinator.init Nat).register_component 0

/-- C3 evaluation state: component 0 added to entity 0 with value 10. -/
def c3coA : Coordinator Nat := (c3coSetup.add_component 0 0 10).getD c3coSetup

/-- C3 evaluation state: component 0 added to entity 1 with value 20. -/
def c3coB : Coordinator Nat := (c3coA.add_component 0 1 20).getD c3coA

/-- C3 evaluation state: component 0 removed from entity 0 (the intended semantics of
the source's `remove_component`, whose written call `RemoveData` does not compile
when instantiated). -/
def c3coFinal : Coordinator Nat := (c3coB.remove_component 0 0).getD c3coB

/-- The component array for type 0 after the C3 removal. -/
def c3coArr : ComponentArray Nat :=
  (alookup c3coFinal.component_manager_.component_arrays_ 0).getD (ComponentArray.mk0 Nat)

/-- C3: evaluation of the remove path at a concrete input. Bit 0 of entity 0's
signature is cleared and entity 0's map entry is gone, and the other entity's
data is unchanged (swap-remove moved it to slot 0) — but `get_component` for the
removed entity does not fail with any missing-component error: it silently
returns slot 0's content, i.e. entity 1's value 20. (Moreover the source's
`ComponentManager::remove_component` calls the nonexistent member `RemoveData`,
so the removal path does not even compile when instantiated.) -/
theorem c3_remove_component_behavior :
    c3coB.remove_component 0 0 = some c3coFinal ∧
    c3coFinal.entity_manager_.signatures_ 0 = 0 ∧
    c3coArr.entity_to_index_map_ 0 = none ∧
    Coordinator.get_component c3coFinal 0 1 = some 20 ∧
    Coordinator.get_component c3coFinal 0 0 = some 20 := by
  exact ⟨rfl, by decide, by decide, by decide, by decide⟩

/-- Entity-manager states reachable by sequences of creations and destructions that
never exhaust the pool (a creation step requires `create_entity` to succeed) and
never double-destroy (a destruction step requires its target to be live). The
second component tracks the currently live ids. -/
inductive EMReach : EntityManager → List Entity → Prop
  | init : EMReach EntityManager.init []
  | create {m m' : EntityManager} {e : Entity} {live : List Entity} :
      EMReach m live → m.create_entity = some (e, m') → EMReach m' (e :: live)
  | destroy {m : EntityManager} {live : List Entity} (e : Entity) :
      EMReach m live → e ∈ live → EMReach (m.destroy_entity e) (live.erase e)

/-- C8: along every such sequence the live ids are pairwise distinct, the free queue
never holds a duplicate (each destroyed id becomes eligible for reuse exactly
once), and the queue holds exactly the non-live ids below `MAX_ENTITIES`. -/
theorem c8_entity_ids {m : EntityManager} {live : List Entity} (h : EMReach m live) :
    live.Nodup ∧ (∀ e ∈ live, e < MAX_ENTITIES) ∧ m.available_entities_.Nodup ∧
      ∀ e, e ∈ m.available_entities_ ↔ e < MAX_ENTITIES ∧ e ∉ live := by
  induction h with
  | init =>
      refine ⟨List.nodup_nil, ?_, ?_, ?_⟩
      · intro e he; simp at he
      · rw [em_init_avail]
        exact List.nodup_range MAX_ENTITIES
      · intro e
        rw [em_init_avail]
        simp [List.mem_range]
  | create hr hstep ih =>
      obtain ⟨hnodL, hltL, hnodA, hiff⟩ := ih
      rename_i m0 m1 e0 live0
      cases hav : m0.available_entities_ with
      | nil =>
          unfold EntityManager.create_entity at hstep
          rw [hav] at hstep
          simp at hstep
      | cons a rest =>
          unfold EntityManager.create_entity at hstep
          rw [hav] at hstep
          simp only [Option.some.injEq, Prod.mk.injEq] at hstep
          obtain ⟨hae, hm1⟩ := hstep
          have hmemA : a ∈ m0.available_entities_ := by rw [hav]; exact List.mem_cons_self a rest
          obtain ⟨haMAX, haLive⟩ := (hiff a).mp hmemA
          have hnodA' : (a :: rest).Nodup := hav ▸ hnodA
          have hanotr : a ∉ rest := (List.nodup_cons.mp hnodA').1
          have hrest : rest.Nodup := (List.nodup_cons.mp hnodA').2
          subst hae
          refine ⟨List.nodup_cons.mpr ⟨haLive, hnodL⟩, ?_, ?_, ?_⟩
          · intro e he
            rcases List.mem_cons.mp he with h1 | h1
            · exact h1 ▸ haMAX
            · exact hltL e h1
          · rw [← hm1]
            exact hrest
          · intro e
            rw [← hm1]
            show e ∈ rest ↔ e < MAX_ENTITIES ∧ e ∉ a :: live0
            constructor
            · intro her
              have heav : e ∈ m0.available_entities_ := by
                rw [hav]; exact List.mem_cons_of_mem a her
              obtain ⟨h1, h2⟩ := (hiff e).mp heav
              refine ⟨h1, ?_⟩
              intro hcon
              rcases List.mem_cons.mp hcon with h3 | h3
              · exact hanotr (h3 ▸ her)
              · exact h2 h3
            · rintro ⟨h1, h2⟩
              have h3 : e ∉ live0 := fun hc => h2 (List.mem_cons_of_mem a hc)
              have h4 : e ≠ a := fun hc => h2 (hc ▸ List.mem_cons_self a live0)
              have h5 : e ∈ m0.available_entities_ := (hiff e).mpr ⟨h1, h3⟩
              rw [hav] at h5
              rcases List.mem_cons.mp h5 with h6 | h6
              · exact absurd h6 h4
              · exact h6
  | destroy e hr hmem ih =>
      obtain ⟨hnodL, hltL, hnodA, hiff⟩ := ih
      rename_i m0 live0
      have henotA : e ∉ m0.available_entities_ := by
        intro hc
        exact ((hiff e).mp hc).2 hmem
      refine ⟨hnodL.erase e, ?_, ?_, ?_⟩
      · intro x hx
        exact hltL x (List.mem_of_mem_erase hx)
      · show (m0.available_entities_ ++ [e]).Nodup
        simp [List.nodup_append, hnodA, henotA]
      · intro x
        show x ∈ m0.available_entities_ ++ [e] ↔ x < MAX_ENTITIES ∧ x ∉ live0.erase e
        rw [List.mem_append]
        by_cases hx : x = e
        · subst hx
          simp only [List.mem_singleton, or_true, true_iff]
          refine ⟨hltL x hmem, ?_⟩
          intro hc
          exact ((List.Nodup.mem_erase_iff hnodL).mp hc).1 rfl
        · simp only [List.mem_singleton, hx, or_false]
          rw [hiff x]
          rw [List.Nodup.mem_erase_iff hnodL]
          constructor
          · rintro ⟨h1, h2⟩
            exact ⟨h1, fun hc => h2 hc.2⟩
          · rintro ⟨h1, h2⟩
            exact ⟨h1, fun hc => h2 ⟨hx, hc⟩⟩

/-- Witness for C8: the invariant evaluated at the initial state. -/
theorem c8_entity_ids_witness :
    ([] : List Entity).Nodup ∧ EntityManager.init.available_entities_.Nodup :=
  ⟨(c8_entity_ids EMReach.init).1, (c8_entity_ids EMReach.init).2.2.1⟩

/-- C1 (amended: the required signature must be nonzero): for every registered system
with a nonzero stored signature `sig` — signatures being set only during setup,
before any entity is created or mutated, as the claim assumes — and every entity
`e`, at every observable point of the execution `e` is a member of the system's
entity set iff `(signature(e) & sig) == sig`. For a zero required signature the
claim as stated is false (see the counterexample): an entity erased by
`destroy_entity` trivially satisfies `(0 & 0) == 0` yet is not in the set. -/
theorem c1_system_membership {V : Type} [Inhabited V] (c : Coordinator V) (h : CReach c)
    (t : TName) (s : System) (sig : Signature)
    (hs : alookup c.system_manager_.systems_ t = some s)
    (hsg : alookup c.system_manager_.signatures_ t = some sig)
    (hne : sig ≠ 0) (e : Entity) :
    e ∈ s.entities_ ↔ c.entity_manager_.signatures_ e &&& sig = sig :=
  creach_sysinv h t s sig hs hsg hne e

/-- Setup phase for the C1 counterexample: component type 0 and system type 0
registered, the system's signature set to the empty bitset before any entity
mutation. -/
def c1xSetup : Coordinator Nat :=
  (((Coordinator.init Nat).register_component 0).register_system 0).set_system_signature 0 0

/-- C1 counterexample state after `create_entity` returned entity 0 (written with the
queue in `List.range'` form so that later evaluation stays shallow). -/
def c1xCreated : Coordinator Nat :=
  ⟨c1xSetup.component_manager_,
   ⟨List.range' 1 (MAX_ENTITIES - 1), c1xSetup.entity_manager_.signatures_, 1⟩,
   c1xSetup.system_manager_⟩

/-- C1 counterexample state after `add_component` put component 0 on entity 0. -/
def c1xAdded : Coordinator Nat := (c1xCreated.add_component 0 0 7).getD c1xCreated

/-- C1 counterexample state after `destroy_entity(0)`. -/
def c1xFinal : Coordinator Nat := c1xAdded.destroy_entity 0

/-- The registered system's state at the C1 counterexample's observable point. -/
def c1xSys : System := (alookup c1xFinal.system_manager_.systems_ 0).getD ⟨∅⟩

/-- The C1 counterexample's creation step is a real `create_entity` call: the fresh
coordinator's queue starts at id 0. -/
theorem c1xCreateStep : c1xSetup.create_entity = some (0, c1xCreated) := by
  have hav0 : c1xSetup.entity_manager_.available_entities_ = List.range MAX_ENTITIES := by
    simp [c1xSetup, Coordinator.init, Coordinator.register_component,
      Coordinator.register_system, Coordinator.set_system_signature, EntityManager.init]
  have hav : c1xSetup.entity_manager_.available_entities_ =
      0 :: List.range' 1 (MAX_ENTITIES - 1) := by
    rw [hav0, List.range_eq_range']
    rfl
  show (c1xSetup.entity_manager_.create_entity).map
      (fun p => (p.1, ⟨c1xSetup.component_manager_, p.2, c1xSetup.system_manager_⟩)) =
    some (0, c1xCreated)
  unfold EntityManager.create_entity
  rw [hav]
  rfl

/-- C1 counterexample: with the system's required signature set to 0 before any
mutation, after `create_entity` returns entity 0, `add_component(0)` places it in
the system's set, and `destroy_entity(0)` erases it — yet the destroyed entity
satisfies `(signature(0) & 0) == 0`, so the membership equivalence claimed for
every signature fails at the empty signature. -/
theorem c1_counterexample :
    c1xSetup.create_entity = some (0, c1xCreated) ∧
    c1xCreated.add_component 0 0 7 = some c1xAdded ∧
    alookup c1xFinal.system_manager_.systems_ 0 = some c1xSys ∧
    alookup c1xFinal.system_manager_.signatures_ 0 = some 0 ∧
    c1xFinal.entity_manager_.signatures_ 0 &&& 0 = 0 ∧
    (0 : Entity) ∉ c1xSys.entities_ :=
  ⟨c1xCreateStep, rfl, rfl, rfl, rfl, by decide⟩

/-- Setup phase for the C1 witness: like the counterexample but with the nonzero
required signature 1. -/
def c1wSetup : Coordinator Nat :=
  (((Coordinator.init Nat).register_component 0).register_system 0).set_system_signature 0 1

/-- C1 witness state: component 0 (hence signature bit 0) added to entity 5. -/
def c1wFinal : Coordinator Nat := (c1wSetup.add_component 0 5 7).getD c1wSetup

/-- The registered system's state in the C1 witness. -/
def c1wSys : System := (alookup c1wFinal.system_manager_.systems_ 0).getD ⟨∅⟩

/-- The C1 witness state is produced by a real `add_component` step. -/
theorem c1wStep : c1wSetup.add_component 0 5 7 = some c1wFinal := rfl

/-- The C1 witness state is reachable: setup, then one `add_component`. -/
theorem c1wReach : CReach c1wFinal :=
  CReach.add (CReach.setup (SetupReach.set_sig 0 1 (SetupReach.reg_sys 0
    (SetupReach.reg_comp 0 SetupReach.init)))) c1wStep

/-- Witness for C1: the membership equivalence evaluated on the concrete reachable
state with required signature 1. -/
theorem c1_system_membership_witness :
    ((5 : Entity) ∈ c1wSys.entities_) ↔
      (c1wFinal.entity_manager_.signatures_ 5 &&& 1 = 1) :=
  c1_system_membership c1wFinal c1wReach 0 c1wSys 1 rfl rfl one_ne_zero 5

/-- C2: for every registered component type (its array exists), `add_component`
succeeds, a subsequent `get_component` for that entity returns exactly the stored
value, and bit `get_component_type<T>()` of the entity's signature is set. -/
theorem c2_add_component {V : Type} (c : Coordinator V) (t : TName) (e : Entity) (v : V)
    (a : ComponentArray V)
    (h : alookup c.component_manager_.component_arrays_ t = some a) :
    ∃ c1, Coordinator.add_component c t e v = some c1 ∧
      Coordinator.get_component c1 t e = some v ∧
      Nat.testBit (c1.entity_manager_.signatures_ e)
        (c.component_manager_.get_component_type t) = true := by
  have hcm : c.component_manager_.add_component t e v =
      some ⟨c.component_manager_.component_types_,
            aset c.component_manager_.component_arrays_ t (a.insert_data e v),
            c.component_manager_.next_component_type⟩ := by
    unfold ComponentManager.add_component
    rw [h]
  have hc1 : Coordinator.add_component c t e v =
      some ⟨⟨c.component_manager_.component_types_,
             aset c.component_manager_.component_arrays_ t (a.insert_data e v),
             c.component_manager_.next_component_type⟩,
            c.entity_manager_.set_signature e
              (sigSet (c.entity_manager_.get_signature e)
                (c.component_manager_.get_component_type t) true),
            c.system_manager_.entity_signature_changed e
              (sigSet (c.entity_manager_.get_signature e)
                (c.component_manager_.get_component_type t) true)⟩ := by
    unfold Coordinator.add_component
    rw [hcm]
    rfl
  refine ⟨_, hc1, ?_, ?_⟩
  · show (alookup (aset c.component_manager_.component_arrays_ t (a.insert_data e v)) t).map
        (fun a0 => a0.get_data e) = some v
    rw [alookup_aset, if_pos rfl, h]
    simp [ComponentArray.get_data, ComponentArray.insert_data]
  · show Nat.testBit
        (if e = e then
          sigSet (c.entity_manager_.get_signature e)
            (c.component_manager_.get_component_type t) true
         else c.entity_manager_.signatures_ e)
        (c.component_manager_.get_component_type t) = true
    rw [if_pos rfl]
    simp [sigSet, Nat.testBit_lor, Nat.shiftLeft_eq, Nat.testBit_two_pow_self]

/-- The C2 witness's starting coordinator: component type 0 registered. -/
def c2w : Coordinator Nat := (Coordinator.init Nat).register_component 0

/-- The C2 witness's coordinator after adding component 0 with value 7 to entity 2. -/
def c2wFinal : Coordinator Nat := (c2w.add_component 0 2 7).getD c2w

/-- Witness for C2: the add/get round trip and the signature bit, evaluated
concretely. -/
theorem c2_add_component_witness :
    Coordinator.get_component c2wFinal 0 2 = some 7 ∧
    Nat.testBit (c2wFinal.entity_manager_.signatures_ 2) 0 = true := by
  obtain ⟨c1, h1, h2, h3⟩ := c2_add_component c2w 0 2 7 (ComponentArray.mk0 Nat) rfl
  have hfin : c2wFinal = c1 := by
    show (c2w.add_component 0 2 7).getD c2w = c1
    rw [h1]
    rfl
  constructor
  · rw [hfin]
    exact h2
  · rw [hfin]
    have hct : c2w.component_manager_.get_component_type 0 = 0 := rfl
    rw [← hct]
    exact h3

/-- C4: `destroy_entity` clears the entity's signature, pushes its id back onto the
free pool, removes it from every registered system's entity set, removes its data
from every registered component array, and leaves arrays that held no data for it
entirely unchanged. -/
theorem c4_destroy_entity {V : Type} (c : Coordinator V) (e : Entity) :
    (Coordinator.destroy_entity c e).entity_manager_.signatures_ e = 0 ∧
    e ∈ (Coordinator.destroy_entity c e).entity_manager_.available_entities_ ∧
    (∀ t s, alookup (Coordinator.destroy_entity c e).system_manager_.systems_ t = some s →
      e ∉ s.entities_) ∧
    (∀ t a, alookup (Coordinator.destroy_entity c e).component_manager_.component_arrays_ t
        = some a → a.entity_to_index_map_ e = none) ∧
    (∀ t a, alookup c.component_manager_.component_arrays_ t = some a →
      a.entity_to_index_map_ e = none →
      alookup (Coordinator.destroy_entity c e).component_manager_.component_arrays_ t
        = some a) := by
  refine ⟨?_, ?_, ?_, ?_, ?_⟩
  · show (if e = e then 0 else c.entity_manager_.signatures_ e) = 0
    rw [if_pos rfl]
  · show e ∈ c.entity_manager_.available_entities_ ++ [e]
    simp
  · intro t s hs
    have hs2 : alookup (c.system_manager_.systems_.map
        (fun p => (p.1, (⟨p.2.entities_.erase e⟩ : System)))) t = some s := hs
    rw [alookup_map_erase] at hs2
    cases hsys : alookup c.system_manager_.systems_ t with
    | none => rw [hsys] at hs2; simp at hs2
    | some s0 =>
        rw [hsys] at hs2
        simp only [Option.map_some'] at hs2
        rw [← Option.some.inj hs2]
        show e ∉ s0.entities_.erase e
        exact Finset.not_mem_erase e s0.entities_
  · intro t a ha
    have ha2 : alookup (c.component_manager_.component_arrays_.map
        (fun p => (p.1, p.2.entity_destroyed e))) t = some a := ha
    rw [alookup_map_destroyed] at ha2
    cases harr : alookup c.component_manager_.component_arrays_ t with
    | none => rw [harr] at ha2; simp at ha2
    | some a0 =>
        rw [harr] at ha2
        simp only [Option.map_some'] at ha2
        rw [← Option.some.inj ha2]
        unfold ComponentArray.entity_destroyed
        by_cases hmem : (a0.entity_to_index_map_ e).isSome = true
        · rw [if_pos hmem]
          simp [ComponentArray.remove_data]
        · rw [if_neg hmem]
          exact Option.not_isSome_iff_eq_none.mp hmem
  · intro t a ha hnone
    have hmap : alookup (c.component_manager_.component_arrays_.map
        (fun p => (p.1, p.2.entity_destroyed e))) t = some (a.entity_destroyed e) := by
      rw [alookup_map_destroyed, ha]
      rfl
    have hid : a.entity_destroyed e = a := by
      unfold ComponentArray.entity_destroyed
      rw [hnone]
      rfl
    show alookup (c.component_manager_.component_arrays_.map
        (fun p => (p.1, p.2.entity_destroyed e))) t = some a
    rw [hmap, hid]

/-- The concrete coordinator for the C4 witness: one component array holding data for
entity 3, one registered system whose set contains entity 3. -/
def c4w : Coordinator Nat :=
  ⟨⟨[(0, 0)], [(0, (ComponentArray.mk0 Nat).insert_data 3 9)], 1⟩,
   ⟨[], fun x => if x = 3 then 1 else 0, 1⟩,
   ⟨[(0, 1)], [(0, ⟨{3}⟩)]⟩⟩

/-- The registered system's state after the C4 witness's destroy. -/
def c4wSys : System :=
  (alookup (Coordinator.destroy_entity c4w 3).system_manager_.systems_ 0).getD ⟨∅⟩

/-- The component array's state after the C4 witness's destroy. -/
def c4wArr : ComponentArray Nat :=
  (alookup (Coordinator.destroy_entity c4w 3).component_manager_.component_arrays_ 0).getD
    (ComponentArray.mk0 Nat)

/-- Witness for C4: the destroy effects evaluated on the concrete coordinator. -/
theorem c4_destroy_entity_witness :
    (Coordinator.destroy_entity c4w 3).entity_manager_.signatures_ 3 = 0 ∧
    3 ∈ (Coordinator.destroy_entity c4w 3).entity_manager_.available_entities_ ∧
    (3 : Entity) ∉ c4wSys.entities_ ∧
    c4wArr.entity_to_index_map_ 3 = none := by
  obtain ⟨h1, h2, h3, h4, h5⟩ := c4_destroy_entity c4w 3
  exact ⟨h1, h2, h3 0 c4wSys rfl, h4 0 c4wArr rfl⟩

/-- C9: `SystemManager::set_signature` uses `unordered_map::insert`, which does not
overwrite an existing entry — a second `set_signature` for the same system type is
silently ignored: the stored signature stays the first one, and a subsequent
`entity_signature_changed` evaluates membership against the first signature. -/
theorem c9_set_signature_ignored (sm : SystemManager) (t : TName) (sig1 sig2 : Signature)
    (h : alookup sm.signatures_ t = some sig1) :
    alookup (sm.set_signature t sig2).signatures_ t = some sig1 ∧
    ∀ e esig s, alookup sm.systems_ t = some s →
      alookup ((sm.set_signature t sig2).entity_signature_changed e esig).systems_ t =
        some (if esig &&& sig1 = sig1 then ⟨insert e s.entities_⟩
              else ⟨s.entities_.erase e⟩) := by
  have h1 : alookup (ainsert sm.signatures_ t sig2) t = some sig1 := by
    rw [alookup_ainsert, if_pos rfl, h]
    rfl
  refine ⟨h1, ?_⟩
  intro e esig s hs
  have h2 := escLoop_systems e esig sm.systems_ (ainsert sm.signatures_ t sig2) t
  show alookup (escLoop e esig sm.systems_ (ainsert sm.signatures_ t sig2)).1 t = _
  rw [h2, hs, h1]
  rfl

/-- The concrete system manager for the C9 witness: system type 0 with stored
signature 1. -/
def c9sm : SystemManager := ⟨[(0, 1)], [(0, ⟨∅⟩)]⟩

/-- Witness for C9: after `set_signature` is called again with signature 2, the
stored signature is still 1 and membership uses 1 (entity 4 with signature 1 is
inserted). -/
theorem c9_set_signature_ignored_witness :
    alookup ((c9sm.set_signature 0 2).signatures_) 0 = some 1 ∧
    alookup ((c9sm.set_signature 0 2).entity_signature_changed 4 1).systems_ 0 =
      some ⟨insert 4 ∅⟩ := by
  obtain ⟨h1, h2⟩ := c9_set_signature_ignored c9sm 0 1 2 rfl
  refine ⟨h1, ?_⟩
  have h3 := h2 4 1 ⟨∅⟩ rfl
  rw [if_pos (show (1 : Signature) &&& 1 = 1 by decide)] at h3
  exact h3

/-- C10: for a registered system whose signature was never set,
`entity_signature_changed` reads the default-constructed signature 0 through
`signatures_[type]`, and since `(sig & 0) == 0` always holds it inserts the
entity into the system's set for every entity and every signature. -/
theorem c10_default_signature (sm : SystemManager) (t : TName) (s : System) (e : Entity)
    (esig : Signature) (hs : alookup sm.systems_ t = some s)
    (hn : alookup sm.signatures_ t = none) :
    alookup ((sm.entity_signature_changed e esig).systems_) t =
      some ⟨insert e s.entities_⟩ := by
  have h2 := escLoop_systems e esig sm.systems_ sm.signatures_ t
  show alookup (escLoop e esig sm.systems_ sm.signatures_).1 t = _
  rw [h2, hs, hn]
  simp

/-- The concrete system manager for the C10 witness: system type 0 registered, no
signature ever set. -/
def c10sm : SystemManager := ⟨[], [(0, ⟨∅⟩)]⟩

/-- Witness for C10: entity 3 with signature 5 is inserted into the signatureless
system's set. -/
theorem c10_default_signature_witness :
    alookup ((c10sm.entity_signature_changed 3 5).systems_) 0 = some ⟨insert 3 ∅⟩ :=
  c10_default_signature c10sm 0 ⟨∅⟩ 3 5 rfl rfl
